import Mathlib

/-!
# ctc: compile-time class helpers

A shallow embedding of `ctc.hpp` (the `constexpr_assert` and `is_consteval`
preprocessor definitions and the `ctc` class template) and of the three
example programs (`ctc_constexpr_assert_test.cpp`, `ctc_natural.cpp`,
`ctc_palindrome.cpp`).

Modelling choices.

* An expression is evaluated either as part of a constant evaluation or at
  run time; `Context` records which.  A C++ expression of type `T` becomes an
  `Eval T`: a function from the context to either a value or the exception
  that escapes.  An exception escaping a constant evaluation is what makes the
  program ill-formed (the compile error); at run time it is the thrown object.
* `std::invalid_argument(msg)` is `Exception.invalid_argument msg`.
* The predefined preprocessor symbols the header tests (`__cplusplus`,
  `_HAS_CXX20`, `__GNUC__`, `__clang__`, `_MSC_VER`) and the user-settable
  `NDEBUG_RUNTIME` are parameters (`Toolchain`, `Config`).
* `int` values are `Int`: no arithmetic is performed on them by the modelled
  functions, so no wrap-around can occur.
* A `std::string_view` built from a `const char*` is the list of its
  characters.
-/

namespace Ctc

/-! ## Evaluation model -/

/-- Whether the enclosing evaluation is a constant evaluation or a run-time one. -/
inductive Context where
  | constant
  | runtime
  deriving DecidableEq, Repr

/-- Exceptions thrown by the library: only `std::invalid_argument`, with its message. -/
inductive Exception where
  | invalid_argument (what : String)
  deriving DecidableEq, Repr

/-- Outcome of evaluating an expression: a value, or the exception that escapes. -/
inductive Outcome (α : Type) where
  | ok (value : α)
  | raised (e : Exception)
  deriving DecidableEq, Repr

/-- An expression of type `α`, to be evaluated in some context. -/
abbrev Eval (α : Type) : Type := Context → Outcome α

/-- Sequencing of two evaluations: the second runs only if the first returns. -/
def Outcome.andThen {α β : Type} (x : Outcome α) (f : α → Outcome β) : Outcome β :=
  match x with
  | Outcome.ok a => f a
  | Outcome.raised e => Outcome.raised e

/-- An evaluation succeeds when it produces a value. -/
def Outcome.succeeds {α : Type} (x : Outcome α) : Bool :=
  match x with
  | Outcome.ok _ => true
  | Outcome.raised _ => false

/-- An evaluation fails when an exception escapes. -/
def Outcome.fails {α : Type} (x : Outcome α) : Bool :=
  match x with
  | Outcome.ok _ => false
  | Outcome.raised _ => true

/-! ## Preprocessor configuration -/

/-- The predefined symbols that `ctc.hpp` lines 62-86 test. -/
structure Toolchain where
  /-- Value of `__cplusplus`. -/
  cplusplus : Nat
  /-- Whether `_HAS_CXX20` is defined non-zero. -/
  HAS_CXX20 : Bool
  /-- Whether `__GNUC__` is defined. -/
  GNUC : Bool
  /-- Whether `__clang__` is defined. -/
  clang : Bool
  /-- Whether `_MSC_VER` is defined. -/
  MSC_VER : Bool
  deriving DecidableEq, Repr

/-- A translation unit's configuration: the value of `NDEBUG_RUNTIME` once the
header has been read, and the compiler's predefined symbols. -/
structure Config where
  NDEBUG_RUNTIME : Int
  toolchain : Toolchain
  deriving DecidableEq, Repr

/-- Lines 51-58: `NDEBUG_RUNTIME` is `0` unless the user defined it. -/
def NDEBUG_RUNTIME (user : Option Int) : Int :=
  match user with
  | some v => v
  | none => 0

/-! ## `constexpr_assert` and `is_consteval` -/

/-- Lines 43-48: `(Cond) ? true : throw std::invalid_argument(Msg)`. -/
def constexpr_assert (Cond : Bool) (Msg : String) : Eval Bool :=
  fun _ => if Cond then Outcome.ok true else Outcome.raised (Exception.invalid_argument Msg)

/-- Lines 61-86: `is_consteval()`.  With C++20 it is
`std::is_constant_evaluated()`, with GCC or Clang it is
`__builtin_is_constant_evaluated()`; with MSVC before C++20 and with any other
compiler it is the literal `false`. -/
def is_consteval (tc : Toolchain) : Context → Bool :=
  fun ctx =>
    if tc.cplusplus ≥ 202002 || tc.HAS_CXX20 then
      decide (ctx = Context.constant)
    else if tc.GNUC || tc.clang then
      decide (ctx = Context.constant)
    else if tc.MSC_VER then
      false
    else
      false

/-! ## The class template `ctc` (lines 123-174) -/

/-- Default argument of `fail_runtime` (line 164). -/
def ctc.fail_runtime_default_msg : String := "cannot be called run-time"

/-- Lines 163-173: `ctc<T>::fail_runtime(msg)`.  Under `#if !NDEBUG_RUNTIME`
the body is `if (!is_consteval()) { constexpr_assert(false, msg); }`; otherwise
it is `(void) msg;`. -/
def ctc.fail_runtime (cfg : Config) (msg : String) : Eval Unit :=
  fun ctx =>
    if cfg.NDEBUG_RUNTIME = 0 then
      if !is_consteval cfg.toolchain ctx then
        (constexpr_assert false msg ctx).andThen (fun _ => Outcome.ok ())
      else
        Outcome.ok ()
    else
      Outcome.ok ()

/-- Lines 129-130: `static constexpr auto Constr = T{ params... };`.  The
initialiser of a `constexpr` variable is a constant evaluation, so the
constructor `T_ctor` runs in `Context.constant`; reading the variable later
does not run it again, whatever the reading context is. -/
def ctc.Constr {P T : Type} (T_ctor : P → Eval T) (params : P) : Eval T :=
  fun _ => T_ctor params Context.constant

/-- Line 136: `constexpr T operator() () const { return Constr<Vs...>; }`. -/
def ctc.call {P T : Type} (T_ctor : P → Eval T) (Vs : P) : Eval T :=
  fun ctx => ctc.Constr T_ctor Vs ctx

/-- Lines 154-158: `constexpr T instance = lam_constr(); return instance;`.
The lambda returns an `R`, which initialises the `constexpr T instance`
through `convert` (the converting constructor, or the copy when `R` is `T`);
both run inside the constant evaluation of the initialiser. -/
def ctc.from_lambda {R T : Type} (convert : R → Eval T) (lam_constr : Unit → Eval R) : Eval T :=
  fun _ =>
    let inst := (lam_constr () Context.constant).andThen (fun r => convert r Context.constant)
    inst

/-- Counted loop `for (i = start; i < start + count; i++) body(i)`: the body
runs for consecutive indices and the first exception leaves the loop. -/
def forLoop (body : Nat → Outcome Unit) : Nat → Nat → Outcome Unit
  | _, 0 => Outcome.ok ()
  | i, count + 1 => (body i).andThen (fun _ => forLoop body (i + 1) count)

/-! ## `examples/ctc_constexpr_assert_test.cpp` -/

/-- Conversion of a `bool` to `int`. -/
def bool_to_int (b : Bool) : Int := if b then 1 else 0

/-- Lines 9-14: `return constexpr_assert(value != 0, "value cannot be zero");`
in a function returning `int`. -/
def nonzero (value : Int) : Eval Int :=
  fun ctx =>
    (constexpr_assert (value != 0) "value cannot be zero" ctx).andThen
      (fun b => Outcome.ok (bool_to_int b))

/-- Line 16. -/
def ZERO : Int := 0

/-- Line 17. -/
def ONE : Int := 1

/-- Line 20: `const int value_of_zero_2 = nonzero(ZERO);`, initialised at run
time because the constant evaluation of the initialiser fails. -/
def value_of_zero_2 : Outcome Int := nonzero ZERO Context.runtime

/-- Line 21: `constexpr int value_of_one = nonzero(ONE);`. -/
def value_of_one : Outcome Int := nonzero ONE Context.constant

/-! ## `examples/ctc_natural.cpp` -/

/-- Lines 5-16: `struct Natural : public ctc<Natural> { int value; ... }`. -/
structure Natural where
  value : Int
  deriving DecidableEq, Repr

/-- Lines 10-15: the constructor `Natural(int value)`: the member is
initialised, then `fail_runtime` and the nonnegativity assertion run. -/
def Natural.ctor (cfg : Config) (value : Int) : Eval Natural :=
  fun ctx =>
    let self : Natural := { value := value }
    (ctc.fail_runtime cfg "constructor cannot be called run-time" ctx).andThen (fun _ =>
      (constexpr_assert (decide (value ≥ 0)) "value needs to be nonnegative integer" ctx).andThen
        (fun _ => Outcome.ok self))

/-- The variable template `Natural::Constr<n>` inherited from `ctc<Natural>`
(also reachable as `ctc<Natural>::Constr<n>` and `Natural::ctc::Constr<n>`). -/
def Natural.Constr (cfg : Config) (n : Int) : Eval Natural :=
  ctc.Constr (Natural.ctor cfg) n

/-- Line 19: `constexpr bool construct_natural(Natural) { return true; }`,
called with an `int` that is converted by the constructor. -/
def construct_natural (cfg : Config) (value : Int) : Eval Bool :=
  fun ctx => (Natural.ctor cfg value ctx).andThen (fun _ => Outcome.ok true)

/-- Lines 20-28. -/
def func_pass_test (cfg : Config) : Eval Bool :=
  fun ctx =>
    (construct_natural cfg 1 ctx).andThen (fun _ =>
      (construct_natural cfg 0 ctx).andThen (fun _ => Outcome.ok true))

/-- Lines 30-36 of `inits_test`: `constexpr Natural ZERO {0};` is a constant
evaluation of the constructor; the next four declarations read
`Natural::Constr<1>`, `ctc<Natural>::Constr<2>`, `Natural::ctc::Constr<3>` and
`Natural::Constr<0>` in the context of the caller. -/
def inits_test (cfg : Config) : Eval Unit :=
  fun ctx =>
    (Natural.ctor cfg 0 Context.constant).andThen (fun _ =>
      (Natural.Constr cfg 1 ctx).andThen (fun _ =>
        (Natural.Constr cfg 2 ctx).andThen (fun _ =>
          (Natural.Constr cfg 3 ctx).andThen (fun _ =>
            (Natural.Constr cfg 0 ctx).andThen (fun _ => Outcome.ok ())))))

/-! ## `examples/ctc_palindrome.cpp`

The definition of the class template (the `CTC_IMPLEMENTATION` part of the
header) is taken as present in this translation unit. -/

/-- Lines 5-6: `struct Palindrome { std::string_view str; ... }`. -/
structure Palindrome where
  str : List Char
  deriving DecidableEq, Repr

/-- Lines 14-21: the loop over the first half of the string, comparing each
character with its mirror image. -/
def Palindrome.assert_palindrom (self : Palindrome) : Eval Unit :=
  fun ctx =>
    let str_len := self.str.length
    forLoop (fun i =>
      let start := self.str.getD i (Char.ofNat 0)
      let last := self.str.getD (str_len - 1 - i) (Char.ofNat 0)
      (constexpr_assert (start == last) "string is not a palindrome" ctx).andThen
        (fun _ => Outcome.ok ())) 0 (self.str.length / 2)

/-- Lines 8-11: the constructor `Palindrome(const char* str)`. -/
def Palindrome.ctor (cfg : Config) (str : List Char) : Eval Palindrome :=
  fun ctx =>
    let self : Palindrome := { str := str }
    (ctc.fail_runtime cfg ctc.fail_runtime_default_msg ctx).andThen (fun _ =>
      (self.assert_palindrom ctx).andThen (fun _ => Outcome.ok self))

/-- Lines 53 and 58: `ctc<Palindrome>::from_lambda([] { return s; })`: the
lambda returns the string and the converting constructor builds the instance. -/
def Palindrome.from_lambda (cfg : Config) (s : List Char) : Eval Palindrome :=
  ctc.from_lambda (Palindrome.ctor cfg) (fun _ _ => Outcome.ok s)

/-- Line 54: `ctc<Palindrome>::from_lambda([]() -> Palindrome { return s; })`:
the constructor runs inside the lambda and the instance is a copy. -/
def Palindrome.from_lambda_typed (cfg : Config) (s : List Char) : Eval Palindrome :=
  ctc.from_lambda (fun p _ => Outcome.ok p) (fun _ => Palindrome.ctor cfg s)

/-- Lines 57-58: `struct Palindrome_ctc : ctc<Palindrome> {};` inherits the
static member of its base. -/
def Palindrome_ctc.from_lambda (cfg : Config) (s : List Char) : Eval Palindrome :=
  Palindrome.from_lambda cfg s

/-! ## Example configurations -/

/-- GCC in C++17 mode, `NDEBUG_RUNTIME` left to its default. -/
def gcc17 : Config :=
  { NDEBUG_RUNTIME := NDEBUG_RUNTIME none
    toolchain := { cplusplus := 201703, HAS_CXX20 := false, GNUC := true, clang := false,
                   MSC_VER := false } }

/-- A C++20 compiler, with `#define NDEBUG_RUNTIME 0` as in `ctc_natural.cpp`. -/
def cxx20 : Config :=
  { NDEBUG_RUNTIME := NDEBUG_RUNTIME (some 0)
    toolchain := { cplusplus := 202002, HAS_CXX20 := false, GNUC := false, clang := false,
                   MSC_VER := false } }

/-- MSVC in C++17 mode (`__cplusplus` is 199711), `NDEBUG_RUNTIME` left to its default. -/
def msvc17 : Config :=
  { NDEBUG_RUNTIME := NDEBUG_RUNTIME none
    toolchain := { cplusplus := 199711, HAS_CXX20 := false, GNUC := false, clang := false,
                   MSC_VER := true } }

/-- MSVC in C++17 mode with `NDEBUG_RUNTIME` set to 1, as the header advises. -/
def msvc17_ndebug : Config :=
  { NDEBUG_RUNTIME := NDEBUG_RUNTIME (some 1)
    toolchain := msvc17.toolchain }

/-! ## Basic facts about the evaluation model -/

theorem Outcome.succeeds_iff_not_fails {α : Type} (x : Outcome α) :
    x.succeeds = true ↔ x.fails = false := by
  cases x <;> simp [Outcome.succeeds, Outcome.fails]

theorem constexpr_assert_true (Msg : String) (ctx : Context) :
    constexpr_assert true Msg ctx = Outcome.ok true := rfl

theorem constexpr_assert_false (Msg : String) (ctx : Context) :
    constexpr_assert false Msg ctx = Outcome.raised (Exception.invalid_argument Msg) := rfl

/-- The statement `constexpr_assert(c, msg);`, its value discarded. -/
theorem constexpr_assert_stmt (c : Bool) (Msg : String) (ctx : Context) :
    (constexpr_assert c Msg ctx).andThen (fun _ => Outcome.ok ()) =
      if c then Outcome.ok () else Outcome.raised (Exception.invalid_argument Msg) := by
  cases c <;> rfl

/-! ## `is_consteval` -/

/-- Whenever `is_consteval()` answers `true`, the evaluation is a constant one. -/
theorem is_consteval_sound (tc : Toolchain) (ctx : Context)
    (h : is_consteval tc ctx = true) : ctx = Context.constant := by
  unfold is_consteval at h
  split at h
  · simpa using h
  · split at h
    · simpa using h
    · split at h <;> simp at h

/-- At run time `is_consteval()` is `false` on every toolchain. -/
theorem is_consteval_runtime (tc : Toolchain) : is_consteval tc Context.runtime = false := by
  cases h : is_consteval tc Context.runtime
  · rfl
  · exact absurd (is_consteval_sound tc _ h) (by decide)

/-- With C++20, GCC or Clang, `is_consteval()` reports the context exactly. -/
theorem is_consteval_exact (tc : Toolchain) (ctx : Context)
    (h : tc.cplusplus ≥ 202002 ∨ tc.HAS_CXX20 = true ∨ tc.GNUC = true ∨ tc.clang = true) :
    is_consteval tc ctx = true ↔ ctx = Context.constant := by
  unfold is_consteval
  split
  · simp
  · split
    · simp
    · rename_i h1 h2
      simp at h1 h2
      rcases h with h | h | h | h
      · omega
      · simp [h1.2] at h
      · simp [h2.1] at h
      · simp [h2.2] at h

/-- Without C++20, GCC or Clang, `is_consteval()` is `false` in every context. -/
theorem is_consteval_fallback (tc : Toolchain) (ctx : Context)
    (h1 : tc.cplusplus < 202002) (h2 : tc.HAS_CXX20 = false) (h3 : tc.GNUC = false)
    (h4 : tc.clang = false) : is_consteval tc ctx = false := by
  unfold is_consteval
  have : ¬ (202002 ≤ tc.cplusplus) := by omega
  simp [h2, h3, h4, this]

/-! ## `fail_runtime` -/

theorem fail_runtime_eq (cfg : Config) (msg : String) (ctx : Context) :
    ctc.fail_runtime cfg msg ctx =
      if cfg.NDEBUG_RUNTIME = 0 ∧ is_consteval cfg.toolchain ctx = false then
        Outcome.raised (Exception.invalid_argument msg)
      else Outcome.ok () := by
  unfold ctc.fail_runtime
  by_cases h1 : cfg.NDEBUG_RUNTIME = 0
  · cases h2 : is_consteval cfg.toolchain ctx <;> simp [h1, constexpr_assert, Outcome.andThen]
  · simp [h1]

/-- In a configuration where the run-time check is compiled out, or where
`is_consteval()` recognises constant evaluation, `fail_runtime` returns during
a constant evaluation. -/
theorem fail_runtime_constant (cfg : Config) (msg : String)
    (h : cfg.NDEBUG_RUNTIME ≠ 0 ∨ is_consteval cfg.toolchain Context.constant = true) :
    ctc.fail_runtime cfg msg Context.constant = Outcome.ok () := by
  rw [fail_runtime_eq]
  rcases h with h | h
  · simp [h]
  · simp [h]

/-! ## Loops and palindromes -/

theorem forLoop_eq (c : Nat → Bool) (e : Exception) (i count : Nat) :
    forLoop (fun j => if c j then Outcome.ok () else Outcome.raised e) i count =
      if ∀ k, k < count → c (i + k) = true then Outcome.ok () else Outcome.raised e := by
  induction count generalizing i with
  | zero => simp [forLoop]
  | succ n ih =>
    rw [forLoop]
    cases hc : c i
    · have : ¬ ∀ k, k < n + 1 → c (i + k) = true := by
        intro h
        have := h 0 (by omega)
        simp [hc] at this
      simp [Outcome.andThen, this]
    · simp only [if_true, Outcome.andThen]
      rw [ih]
      have : (∀ k, k < n → c (i + 1 + k) = true) ↔ (∀ k, k < n + 1 → c (i + k) = true) := by
        constructor
        · intro h k hk
          rcases Nat.eq_zero_or_pos k with h0 | h0
          · subst h0
            simpa using hc
          · have := h (k - 1) (by omega)
            have e2 : i + 1 + (k - 1) = i + k := by omega
            rwa [e2] at this
        · intro h k hk
          have := h (k + 1) (by omega)
          have e2 : i + (k + 1) = i + 1 + k := by omega
          rwa [e2] at this
      simp only [this]

/-- A string equals its reverse exactly when each character of its first half
equals its mirror image. -/
theorem half_mirror_iff_reverse (s : List Char) (d : Char) :
    (∀ k, k < s.length / 2 → s.getD k d = s.getD (s.length - 1 - k) d) ↔ s = s.reverse := by
  constructor
  · intro h
    have full : ∀ k, k < s.length → s.getD k d = s.getD (s.length - 1 - k) d := by
      intro k hk
      by_cases h1 : k < s.length / 2
      · exact h k h1
      · by_cases h2 : s.length - 1 - k < s.length / 2
        · have := h (s.length - 1 - k) h2
          have e : s.length - 1 - (s.length - 1 - k) = k := by omega
          rw [e] at this
          exact this.symm
        · have e : s.length - 1 - k = k := by omega
          rw [e]
    apply List.ext_getElem (by simp)
    intro n h1 h2
    have := full n h1
    rw [List.getD_eq_getElem _ _ h1, List.getD_eq_getElem _ _ (by omega)] at this
    rw [List.getElem_reverse]
    exact this
  · intro h k hk
    have h1 : k < s.length := by omega
    have h2 : s.length - 1 - k < s.length := by omega
    have h3 : k < s.reverse.length := by simpa using h1
    rw [List.getD_eq_getElem _ _ h1, List.getD_eq_getElem _ _ h2]
    have : s[k] = s.reverse[k] := by
      congr 1
    rw [this, List.getElem_reverse]

theorem assert_palindrom_eq (self : Palindrome) (ctx : Context) :
    self.assert_palindrom ctx =
      if self.str = self.str.reverse then Outcome.ok ()
      else Outcome.raised (Exception.invalid_argument "string is not a palindrome") := by
  unfold Palindrome.assert_palindrom
  simp only [constexpr_assert_stmt]
  rw [forLoop_eq (fun i => self.str.getD i (Char.ofNat 0) ==
    self.str.getD (self.str.length - 1 - i) (Char.ofNat 0))]
  simp only [Nat.zero_add, beq_iff_eq]
  simp only [half_mirror_iff_reverse]

theorem Palindrome_ctor_eq (cfg : Config) (s : List Char) (ctx : Context)
    (h : ctc.fail_runtime cfg ctc.fail_runtime_default_msg ctx = Outcome.ok ()) :
    Palindrome.ctor cfg s ctx =
      if s = s.reverse then Outcome.ok { str := s }
      else Outcome.raised (Exception.invalid_argument "string is not a palindrome") := by
  unfold Palindrome.ctor
  simp only [h, Outcome.andThen, assert_palindrom_eq]
  by_cases hs : s = s.reverse
  · simp [← hs]
  · simp [hs]

theorem Natural_ctor_eq (cfg : Config) (value : Int) (ctx : Context)
    (h : ctc.fail_runtime cfg "constructor cannot be called run-time" ctx = Outcome.ok ()) :
    Natural.ctor cfg value ctx =
      if 0 ≤ value then Outcome.ok { value := value }
      else Outcome.raised (Exception.invalid_argument "value needs to be nonnegative integer") := by
  unfold Natural.ctor
  simp only [h, Outcome.andThen, constexpr_assert]
  by_cases hv : 0 ≤ value
  · simp [hv]
  · simp [hv]

/-- The loop of `assert_palindrom` only reads characters inside the string. -/
theorem assert_palindrom_in_bounds (self : Palindrome) (i : Nat)
    (h : i < self.str.length / 2) :
    i < self.str.length ∧ self.str.length - 1 - i < self.str.length := by
  omega

/-! ## The outcomes recorded in the example programs -/

/-- `ctc_constexpr_assert_test.cpp` line 20: "exception run-time". -/
theorem value_of_zero_2_raises :
    value_of_zero_2 = Outcome.raised (Exception.invalid_argument "value cannot be zero") := by
  decide

/-- `ctc_constexpr_assert_test.cpp` line 21: "succeds". -/
theorem value_of_one_succeeds : value_of_one = Outcome.ok 1 := by
  decide

/-- `ctc_natural.cpp` line 63: `constexpr bool result = func_pass_test();`. -/
theorem func_pass_test_constant : func_pass_test cxx20 Context.constant = Outcome.ok true := by
  decide

/-- `ctc_natural.cpp` line 62: calling `func_pass_test()` at run time "will
produce run-time fail exceptions". -/
theorem func_pass_test_runtime :
    func_pass_test cxx20 Context.runtime =
      Outcome.raised (Exception.invalid_argument "constructor cannot be called run-time") := by
  decide

/-- `ctc_natural.cpp` line 64: `inits_test()` run in a non-constant context. -/
theorem inits_test_runtime : inits_test cxx20 Context.runtime = Outcome.ok () := by
  decide

/-- `ctc_natural.cpp` lines 39-40: `Natural::Constr<-1>` is rejected, also
when read at run time. -/
theorem Constr_negative_rejected (ctx : Context) :
    Natural.Constr cxx20 (-1) ctx =
      Outcome.raised (Exception.invalid_argument "value needs to be nonnegative integer") := by
  cases ctx <;> decide

/-- `ctc_palindrome.cpp` line 40: `const Palindrome p2 { "jacob" };` at run
time stops at the run-time check. -/
theorem Palindrome_runtime_raises :
    Palindrome.ctor gcc17 "jacob".data Context.runtime =
      Outcome.raised (Exception.invalid_argument "cannot be called run-time") := by
  decide

/-! ## When the example programs are well-formed

`ctc_natural.cpp` line 31 (`constexpr Natural ZERO {0};`) and
`ctc_palindrome.cpp` line 36 (`constexpr Palindrome p { "racecar" };`) are
constant evaluations that call `fail_runtime`.  They are accepted exactly in
the configurations in which `fail_runtime` returns during a constant
evaluation; this is the standing assumption of the statements about
construction in a constant-evaluated context below. -/

theorem palindrome_example_well_formed_iff (cfg : Config) :
    Palindrome.ctor cfg "racecar".data Context.constant = Outcome.ok { str := "racecar".data } ↔
      (cfg.NDEBUG_RUNTIME ≠ 0 ∨ is_consteval cfg.toolchain Context.constant = true) := by
  constructor
  · intro h
    by_cases h1 : cfg.NDEBUG_RUNTIME = 0
    · right
      cases h2 : is_consteval cfg.toolchain Context.constant
      · have hf := fail_runtime_eq cfg ctc.fail_runtime_default_msg Context.constant
        simp only [h1, h2, and_self, if_true] at hf
        simp [Palindrome.ctor, hf, Outcome.andThen] at h
      · rfl
    · exact Or.inl h1
  · intro h
    rw [Palindrome_ctor_eq cfg _ _ (fail_runtime_constant cfg _ h)]
    decide

theorem natural_example_well_formed_iff (cfg : Config) (h0 : cfg.NDEBUG_RUNTIME = 0) :
    Natural.ctor cfg 0 Context.constant = Outcome.ok { value := 0 } ↔
      is_consteval cfg.toolchain Context.constant = true := by
  constructor
  · intro h
    cases h2 : is_consteval cfg.toolchain Context.constant
    · have hf := fail_runtime_eq cfg "constructor cannot be called run-time" Context.constant
      simp only [h0, h2, and_self, if_true] at hf
      simp [Natural.ctor, hf, Outcome.andThen] at h
    · rfl
  · intro h
    rw [Natural_ctor_eq cfg _ _ (fail_runtime_constant cfg _ (Or.inr h))]
    simp

/-- On the fallback toolchains with the run-time check enabled, `fail_runtime`
fires in every context, constant evaluation included. -/
theorem fail_runtime_fallback (msg : String) (ctx : Context) :
    ctc.fail_runtime msvc17 msg ctx = Outcome.raised (Exception.invalid_argument msg) := by
  rw [fail_runtime_eq]
  have h1 : is_consteval msvc17.toolchain ctx = false :=
    is_consteval_fallback _ _ (by decide) rfl rfl rfl
  have h2 : msvc17.NDEBUG_RUNTIME = 0 := rfl
  simp [h1, h2]

/-- With `NDEBUG_RUNTIME` set to 1, as the header advises for the fallback
toolchains, `fail_runtime` is inert and only the palindrome check decides. -/
theorem Palindrome_ndebug_fallback :
    Palindrome.ctor msvc17_ndebug "racecar".data Context.constant =
        Outcome.ok { str := "racecar".data } ∧
    Palindrome.ctor msvc17_ndebug "jacob".data Context.runtime =
        Outcome.raised (Exception.invalid_argument "string is not a palindrome") := by
  decide

/-! ## The statements about the library and its examples -/

/-- C1: `constexpr_assert(Cond, Msg)` evaluates to `true` when `Cond` holds and
otherwise fails with `std::invalid_argument` carrying exactly `Msg`; the
outcome does not depend on whether the evaluation is a constant evaluation or
a run-time one. -/
theorem constexpr_assert_contract (Cond : Bool) (Msg : String) (ctx : Context) :
    constexpr_assert true Msg ctx = Outcome.ok true ∧
    constexpr_assert false Msg ctx = Outcome.raised (Exception.invalid_argument Msg) ∧
    ((constexpr_assert Cond Msg ctx).succeeds = true ↔ Cond = true) ∧
    constexpr_assert Cond Msg ctx =
      (if Cond then Outcome.ok true else Outcome.raised (Exception.invalid_argument Msg)) ∧
    constexpr_assert Cond Msg Context.constant = constexpr_assert Cond Msg Context.runtime := by
  refine ⟨rfl, rfl, ?_, rfl, rfl⟩
  cases Cond <;> simp [constexpr_assert, Outcome.succeeds]

/-- C2: `fail_runtime(msg)` fails if and only if `NDEBUG_RUNTIME` is 0 and
`is_consteval()` is false; when it fails the exception is
`std::invalid_argument` carrying `msg`, the default message being
"cannot be called run-time"; in every other case it returns. -/
theorem fail_runtime_contract (cfg : Config) (msg : String) (ctx : Context) :
    ((ctc.fail_runtime cfg msg ctx).fails = true ↔
      (cfg.NDEBUG_RUNTIME = 0 ∧ is_consteval cfg.toolchain ctx = false)) ∧
    ctc.fail_runtime cfg msg ctx =
      (if cfg.NDEBUG_RUNTIME = 0 ∧ is_consteval cfg.toolchain ctx = false then
        Outcome.raised (Exception.invalid_argument msg)
      else Outcome.ok ()) ∧
    ctc.fail_runtime_default_msg = "cannot be called run-time" := by
  refine ⟨?_, fail_runtime_eq cfg msg ctx, rfl⟩
  rw [fail_runtime_eq]
  by_cases h : cfg.NDEBUG_RUNTIME = 0 ∧ is_consteval cfg.toolchain ctx = false
  · simp [h, Outcome.fails]
  · simp only [h, if_false, Outcome.fails]
    simp

/-- C3: in a constant evaluation (in a configuration where `fail_runtime`
lets constant evaluations through), constructing `Palindrome{s}` succeeds if
and only if `s` equals its reverse, and otherwise fails with
`std::invalid_argument` "string is not a palindrome"; the empty string, every
one-character string, "racecar" and "kamilslimak" are accepted and "jacob" is
rejected. -/
theorem Palindrome_accepts_iff_palindrome (cfg : Config) (s : List Char)
    (h : cfg.NDEBUG_RUNTIME ≠ 0 ∨ is_consteval cfg.toolchain Context.constant = true) :
    ((Palindrome.ctor cfg s Context.constant).succeeds = true ↔ s = s.reverse) ∧
    Palindrome.ctor cfg s Context.constant =
      (if s = s.reverse then Outcome.ok { str := s }
       else Outcome.raised (Exception.invalid_argument "string is not a palindrome")) ∧
    Palindrome.ctor cfg [] Context.constant = Outcome.ok { str := [] } ∧
    (∀ c : Char, Palindrome.ctor cfg [c] Context.constant = Outcome.ok { str := [c] }) ∧
    Palindrome.ctor cfg "racecar".data Context.constant = Outcome.ok { str := "racecar".data } ∧
    Palindrome.ctor cfg "kamilslimak".data Context.constant =
      Outcome.ok { str := "kamilslimak".data } ∧
    Palindrome.ctor cfg "jacob".data Context.constant =
      Outcome.raised (Exception.invalid_argument "string is not a palindrome") := by
  have hf := fail_runtime_constant cfg ctc.fail_runtime_default_msg h
  refine ⟨?_, Palindrome_ctor_eq cfg s _ hf, ?_, ?_, ?_, ?_, ?_⟩
  · rw [Palindrome_ctor_eq cfg s _ hf]
    by_cases hs : s = s.reverse
    · simp [← hs, Outcome.succeeds]
    · simp [hs, Outcome.succeeds]
  · rw [Palindrome_ctor_eq cfg _ _ hf]
    rfl
  · intro c
    rw [Palindrome_ctor_eq cfg _ _ hf]
    simp
  · rw [Palindrome_ctor_eq cfg _ _ hf]
    decide
  · rw [Palindrome_ctor_eq cfg _ _ hf]
    decide
  · rw [Palindrome_ctor_eq cfg _ _ hf]
    decide

theorem Palindrome_accepts_iff_palindrome_witness :
    (gcc17.NDEBUG_RUNTIME ≠ 0 ∨ is_consteval gcc17.toolchain Context.constant = true) ∧
    ((Palindrome.ctor gcc17 "abcba".data Context.constant).succeeds = true ↔
      "abcba".data = "abcba".data.reverse) :=
  ⟨by decide, (Palindrome_accepts_iff_palindrome gcc17 "abcba".data (by decide)).1⟩

/-- C4: in a constant evaluation (in a configuration where `fail_runtime`
lets constant evaluations through), constructing `Natural(value)` succeeds if
and only if `value >= 0`, the object then holding the argument in its field
`value`; for a negative argument it fails with `std::invalid_argument`
"value needs to be nonnegative integer". -/
theorem Natural_accepts_iff_nonnegative (cfg : Config) (value : Int)
    (h : cfg.NDEBUG_RUNTIME ≠ 0 ∨ is_consteval cfg.toolchain Context.constant = true) :
    ((Natural.ctor cfg value Context.constant).succeeds = true ↔ 0 ≤ value) ∧
    Natural.ctor cfg value Context.constant =
      (if 0 ≤ value then Outcome.ok { value := value }
       else Outcome.raised
        (Exception.invalid_argument "value needs to be nonnegative integer")) := by
  have hf := fail_runtime_constant cfg "constructor cannot be called run-time" h
  refine ⟨?_, Natural_ctor_eq cfg value _ hf⟩
  rw [Natural_ctor_eq cfg value _ hf]
  by_cases hv : 0 ≤ value
  · simp [hv, Outcome.succeeds]
  · simp [hv, Outcome.succeeds]

theorem Natural_accepts_iff_nonnegative_witness :
    (cxx20.NDEBUG_RUNTIME ≠ 0 ∨ is_consteval cxx20.toolchain Context.constant = true) ∧
    Natural.ctor cxx20 (-1) Context.constant =
      (if (0 : Int) ≤ -1 then Outcome.ok { value := -1 }
       else Outcome.raised
        (Exception.invalid_argument "value needs to be nonnegative integer")) :=
  ⟨by decide, (Natural_accepts_iff_nonnegative cxx20 (-1) (by decide)).2⟩

/-- C5: `nonzero(value)` fails if and only if `value == 0`, the failure being
`std::invalid_argument` "value cannot be zero"; for every other value the call
succeeds; the outcome is the same in a constant evaluation and at run time. -/
theorem nonzero_fails_iff_zero (value : Int) (ctx : Context) :
    ((nonzero value ctx).fails = true ↔ value = 0) ∧
    ((nonzero value ctx).succeeds = true ↔ value ≠ 0) ∧
    nonzero 0 ctx = Outcome.raised (Exception.invalid_argument "value cannot be zero") ∧
    nonzero value Context.constant = nonzero value Context.runtime := by
  refine ⟨?_, ?_, rfl, rfl⟩
  · by_cases hv : value = 0
    · subst hv
      simp [nonzero, constexpr_assert, Outcome.andThen, Outcome.fails]
    · simp [nonzero, constexpr_assert, Outcome.andThen, Outcome.fails, hv]
  · by_cases hv : value = 0
    · subst hv
      simp [nonzero, constexpr_assert, Outcome.andThen, Outcome.succeeds]
    · simp [nonzero, constexpr_assert, Outcome.andThen, Outcome.succeeds, hv]

/-- C6: `ctc<Palindrome>::from_lambda` is always compile-time.  For every
lambda returning a string `s`, and whatever the context of the call, the
instance is the one that `Palindrome{s}` yields in a constant evaluation; so
(in a configuration where `fail_runtime` lets constant evaluations through)
the call never fails through `fail_runtime`, it succeeds if and only if `s` is
a palindrome, and its result is that of `Palindrome{s}` constructed in a
constant evaluation.  The same holds for the lambda that returns a
`Palindrome`, and through the derived `Palindrome_ctc`. -/
theorem from_lambda_always_compile_time (cfg : Config) (s : List Char)
    (lam_constr : Unit → Eval (List Char)) (ctx : Context)
    (hlam : lam_constr () Context.constant = Outcome.ok s)
    (h : cfg.NDEBUG_RUNTIME ≠ 0 ∨ is_consteval cfg.toolchain Context.constant = true) :
    ctc.from_lambda (Palindrome.ctor cfg) lam_constr ctx =
      Palindrome.ctor cfg s Context.constant ∧
    ctc.fail_runtime cfg ctc.fail_runtime_default_msg Context.constant = Outcome.ok () ∧
    ctc.from_lambda (Palindrome.ctor cfg) lam_constr ctx ≠
      Outcome.raised (Exception.invalid_argument ctc.fail_runtime_default_msg) ∧
    ((ctc.from_lambda (Palindrome.ctor cfg) lam_constr ctx).succeeds = true ↔
      s = s.reverse) ∧
    ctc.from_lambda (Palindrome.ctor cfg) lam_constr ctx =
      (if s = s.reverse then Outcome.ok { str := s }
       else Outcome.raised (Exception.invalid_argument "string is not a palindrome")) ∧
    Palindrome.from_lambda cfg s ctx = Palindrome.ctor cfg s Context.constant ∧
    Palindrome.from_lambda_typed cfg s ctx = Palindrome.ctor cfg s Context.constant ∧
    Palindrome_ctc.from_lambda cfg s ctx = Palindrome.ctor cfg s Context.constant := by
  have hf := fail_runtime_constant cfg ctc.fail_runtime_default_msg h
  have h1 : ctc.from_lambda (Palindrome.ctor cfg) lam_constr ctx =
      Palindrome.ctor cfg s Context.constant := by
    simp [ctc.from_lambda, hlam, Outcome.andThen]
  have h2 := Palindrome_ctor_eq cfg s Context.constant hf
  refine ⟨h1, hf, ?_, ?_, ?_, ?_, ?_, ?_⟩
  · rw [h1, h2]
    by_cases hs : s = s.reverse
    · simp [← hs]
    · simp [hs, ctc.fail_runtime_default_msg]
  · rw [h1, h2]
    by_cases hs : s = s.reverse
    · simp [← hs, Outcome.succeeds]
    · simp [hs, Outcome.succeeds]
  · rw [h1, h2]
  · simp [Palindrome.from_lambda, ctc.from_lambda, Outcome.andThen]
  · simp only [Palindrome.from_lambda_typed, ctc.from_lambda]
    cases Palindrome.ctor cfg s Context.constant <;> rfl
  · simp [Palindrome_ctc.from_lambda, Palindrome.from_lambda, ctc.from_lambda, Outcome.andThen]

theorem from_lambda_always_compile_time_witness :
    ((fun (_ : Unit) (_ : Context) => Outcome.ok "kamilslimak".data) () Context.constant =
      Outcome.ok "kamilslimak".data) ∧
    (gcc17.NDEBUG_RUNTIME ≠ 0 ∨ is_consteval gcc17.toolchain Context.constant = true) ∧
    ctc.from_lambda (Palindrome.ctor gcc17)
        (fun (_ : Unit) (_ : Context) => Outcome.ok "kamilslimak".data) Context.runtime =
      Palindrome.ctor gcc17 "kamilslimak".data Context.constant :=
  ⟨rfl, by decide,
    (from_lambda_always_compile_time gcc17 "kamilslimak".data
      (fun _ _ => Outcome.ok "kamilslimak".data) Context.runtime rfl (by decide)).1⟩

/-- C7: `ctc<T, Vs...>{}()` returns `ctc<T>::Constr<Vs...>`, which is
`T{Vs...}` as constructed in a constant evaluation, whatever the context in
which `Constr` is read; in particular (in a configuration where `fail_runtime`
lets constant evaluations through) for every `n >= 0`, `Natural::Constr<n>`
read at run time is a `Natural` whose `value` is `n`, not the `fail_runtime`
exception. -/
theorem Constr_is_constant_evaluated {P T : Type} (T_ctor : P → Eval T) (Vs : P)
    (ctx : Context) (cfg : Config) (n : Int)
    (h : cfg.NDEBUG_RUNTIME ≠ 0 ∨ is_consteval cfg.toolchain Context.constant = true)
    (hn : 0 ≤ n) :
    ctc.call T_ctor Vs ctx = ctc.Constr T_ctor Vs ctx ∧
    ctc.Constr T_ctor Vs ctx = T_ctor Vs Context.constant ∧
    Natural.Constr cfg n Context.runtime = Outcome.ok { value := n } ∧
    Natural.Constr cfg n Context.runtime ≠
      Outcome.raised (Exception.invalid_argument "constructor cannot be called run-time") ∧
    ctc.call (Natural.ctor cfg) n Context.runtime = Outcome.ok { value := n } := by
  have hf := fail_runtime_constant cfg "constructor cannot be called run-time" h
  have h1 : Natural.Constr cfg n Context.runtime = Outcome.ok { value := n } := by
    simp only [Natural.Constr, ctc.Constr]
    rw [Natural_ctor_eq cfg n _ hf]
    simp [hn]
  refine ⟨rfl, rfl, h1, ?_, h1⟩
  rw [h1]
  simp

theorem Constr_is_constant_evaluated_witness :
    (cxx20.NDEBUG_RUNTIME ≠ 0 ∨ is_consteval cxx20.toolchain Context.constant = true) ∧
    (0 : Int) ≤ 7 ∧
    Natural.Constr cxx20 7 Context.runtime = Outcome.ok { value := 7 } :=
  ⟨by decide, by decide,
    (Constr_is_constant_evaluated (Natural.ctor cxx20) 7 Context.runtime cxx20 7
      (by decide) (by decide)).2.2.1⟩

/-- C8: for every `value != 0`, `nonzero(value)` returns 1 (the `bool` `true`
converted to `int`) and not the argument: the result is the same for every
non-zero input, and `nonzero(v) == v` holds only for `v == 1`. -/
theorem nonzero_returns_one (value : Int) (ctx : Context) (h : value ≠ 0) :
    nonzero value ctx = Outcome.ok 1 ∧
    (∀ other : Int, other ≠ 0 → nonzero other ctx = nonzero value ctx) ∧
    (nonzero value ctx = Outcome.ok value ↔ value = 1) := by
  have one : ∀ v : Int, v ≠ 0 → nonzero v ctx = Outcome.ok 1 := by
    intro v hv
    simp [nonzero, constexpr_assert, Outcome.andThen, hv, bool_to_int]
  refine ⟨one value h, ?_, ?_⟩
  · intro other ho
    rw [one other ho, one value h]
  · rw [one value h]
    constructor
    · intro e
      injection e with e
      exact e.symm
    · intro e
      rw [e]

theorem nonzero_returns_one_witness :
    (5 : Int) ≠ 0 ∧ nonzero 5 Context.runtime = Outcome.ok 1 :=
  ⟨by decide, (nonzero_returns_one 5 Context.runtime (by decide)).1⟩

end Ctc
